/-
Verification of the OTO shipping plugin (`oto/utils.py`) against its
specification.  The development shallowly embeds the plugin's code:

* `verify_webhook`   — HMAC-SHA256 signature check (utils.py lines 100-114),
  with a concrete executable model of SHA-256, HMAC and base64 standing in
  for Python's `hashlib` / `hmac` / `base64` library calls;
* `handle_webhook`   — the webhook handler (lines 117-160), modelled as a
  function from the list of persisted fulfillments to an updated list plus
  the HTTP response and the list of cancellation actions it invokes;
* `generate_create_order_data` and friends — the outbound payload builders
  (lines 19-97), with money amounts modelled as exact rationals.

Strings are modelled as `List Char`; Python's `str.split(sep)` for a
one-character separator is `splitChar`; Python dicts are association lists
with `dict.update` semantics given by `setKey`/`applyAll`.
-/
import Mathlib

abbrev Str := List Char

/-! ## SHA-256 (model of `hashlib.sha256`)

All 32-bit words are `Nat` reduced mod `2^32` explicitly. -/

def w32 (n : Nat) : Nat := n % 4294967296

def add32 (a b : Nat) : Nat := (a + b) % 4294967296

def rotr32 (n x : Nat) : Nat := w32 (x / 2 ^ n + x % 2 ^ n * 2 ^ (32 - n))

def xor3 (a b c : Nat) : Nat := Nat.xor (Nat.xor a b) c

def smallSigma0 (x : Nat) : Nat := xor3 (rotr32 7 x) (rotr32 18 x) (x / 2 ^ 3)

def smallSigma1 (x : Nat) : Nat := xor3 (rotr32 17 x) (rotr32 19 x) (x / 2 ^ 10)

def bigSigma0 (x : Nat) : Nat := xor3 (rotr32 2 x) (rotr32 13 x) (rotr32 22 x)

def bigSigma1 (x : Nat) : Nat := xor3 (rotr32 6 x) (rotr32 11 x) (rotr32 25 x)

def chFn (x y z : Nat) : Nat :=
  Nat.xor (Nat.land x y) (Nat.land (Nat.xor x 4294967295) z)

def majFn (x y z : Nat) : Nat :=
  Nat.xor (Nat.xor (Nat.land x y) (Nat.land x z)) (Nat.land y z)

structure Hstate where
  a : Nat
  b : Nat
  c : Nat
  d : Nat
  e : Nat
  f : Nat
  g : Nat
  h : Nat
deriving DecidableEq

def initH : Hstate :=
  ⟨1779033703, 3144134277, 1013904242, 2773480762,
   1359893119, 2600822924, 528734635, 1541459225⟩

def sha256K : List Nat :=
  [1116352408, 1899447441, 3049323471, 3921009573, 961987163,
   1508970993, 2453635748, 2870763221, 3624381080, 310598401,
   607225278, 1426881987, 1925078388, 2162078206, 2614888103,
   3248222580, 3835390401, 4022224774, 264347078, 604807628,
   770255983, 1249150122, 1555081692, 1996064986, 2554220882,
   2821834349, 2952996808, 3210313671, 3336571891, 3584528711,
   113926993, 338241895, 666307205, 773529912, 1294757372,
   1396182291, 1695183700, 1986661051, 2177026350, 2456956037,
   2730485921, 2820302411, 3259730800, 3345764771, 3516065817,
   3600352804, 4094571909, 275423344, 430227734, 506948616,
   659060556, 883997877, 958139571, 1322822218, 1537002063,
   1747873779, 1955562222, 2024104815, 2227730452, 2361852424,
   2428436474, 2756734187, 3204031479, 3329325298]

/-- One SHA-256 compression round; `kw` packs the schedule word and the
round constant. -/
def sha256Round (st : Hstate) (kw : Nat × Nat) : Hstate :=
  let t1 := add32 st.h (add32 (bigSigma1 st.e)
    (add32 (chFn st.e st.f st.g) (add32 kw.1 kw.2)))
  let t2 := add32 (bigSigma0 st.a) (majFn st.a st.b st.c)
  { a := add32 t1 t2, b := st.a, c := st.b, d := st.c,
    e := add32 st.d t1, f := st.e, g := st.f, h := st.g }

/-- Group a byte list into big-endian 32-bit words (fuelled recursion). -/
def toWords : Nat → List Nat → List Nat
  | 0, _ => []
  | _, [] => []
  | fuel + 1, b0 :: l =>
    match l with
    | b1 :: b2 :: b3 :: rest =>
        (((b0 * 256 + b1) * 256 + b2) * 256 + b3) :: toWords fuel rest
    | _ => []

/-- Extend a 16-word block to the 64-word message schedule. -/
def extendSchedule : Nat → List Nat → List Nat
  | 0, acc => acc
  | fuel + 1, acc =>
    let i := acc.length
    let w := add32 (add32 (smallSigma1 (acc.getD (i - 2) 0)) (acc.getD (i - 7) 0))
      (add32 (smallSigma0 (acc.getD (i - 15) 0)) (acc.getD (i - 16) 0))
    extendSchedule fuel (acc ++ [w])

def compressBlock (st : Hstate) (block : List Nat) : Hstate :=
  let ws := extendSchedule 48 (toWords 16 block)
  let fin := (ws.zip sha256K).foldl sha256Round st
  { a := add32 st.a fin.a, b := add32 st.b fin.b, c := add32 st.c fin.c,
    d := add32 st.d fin.d, e := add32 st.e fin.e, f := add32 st.f fin.f,
    g := add32 st.g fin.g, h := add32 st.h fin.h }

/-- Big-endian 8-byte encoding of the bit length. -/
def lenBytes8 (n : Nat) : List Nat :=
  [n / 2 ^ 56 % 256, n / 2 ^ 48 % 256, n / 2 ^ 40 % 256, n / 2 ^ 32 % 256,
   n / 2 ^ 24 % 256, n / 2 ^ 16 % 256, n / 2 ^ 8 % 256, n % 256]

/-- SHA-256 padding: `0x80`, zeros to 56 mod 64, then the 64-bit bit length. -/
def padMsg (m : List Nat) : List Nat :=
  m ++ 128 :: List.replicate ((119 - m.length % 64) % 64) 0
    ++ lenBytes8 (8 * m.length)

/-- Split a (padded) byte list into 64-byte blocks (fuelled recursion). -/
def blocks : Nat → List Nat → List (List Nat)
  | 0, _ => []
  | _, [] => []
  | fuel + 1, l => l.take 64 :: blocks fuel (l.drop 64)

def bytesOfWord (w : Nat) : List Nat :=
  [w / 16777216 % 256, w / 65536 % 256, w / 256 % 256, w % 256]

def digestBytes (st : Hstate) : List Nat :=
  bytesOfWord st.a ++ bytesOfWord st.b ++ bytesOfWord st.c ++ bytesOfWord st.d ++
  bytesOfWord st.e ++ bytesOfWord st.f ++ bytesOfWord st.g ++ bytesOfWord st.h

/-- SHA-256 of a byte list. -/
def sha256 (m : List Nat) : List Nat :=
  let padded := padMsg m
  digestBytes ((blocks padded.length padded).foldl compressBlock initH)

/-! ## HMAC-SHA256 (model of `hmac.new(..., digestmod=hashlib.sha256)`) -/

def hmacSha256 (key msg : List Nat) : List Nat :=
  let k0 := if 64 < key.length then sha256 key else key
  let k1 := k0 ++ List.replicate (64 - k0.length) 0
  let ipadded := k1.map (fun b => Nat.xor b 0x36)
  let opadded := k1.map (fun b => Nat.xor b 0x5c)
  sha256 (opadded ++ sha256 (ipadded ++ msg))

/-! ## Base64 (model of `base64.b64encode`) -/

def b64Alphabet : Str :=
  "ABCDEFGHIJKLMNOPQRSTUVWXYZabcdefghijklmnopqrstuvwxyz0123456789+/".data

def b64Char (n : Nat) : Char := b64Alphabet.getD n 'A'

def b64encodeAux : Nat → List Nat → Str
  | 0, _ => []
  | _, [] => []
  | _ + 1, [b] =>
      [b64Char (b / 4), b64Char (b % 4 * 16), '=', '=']
  | _ + 1, [b, c] =>
      [b64Char (b / 4), b64Char (b % 4 * 16 + c / 16), b64Char (c % 16 * 4), '=']
  | fuel + 1, b :: c :: d :: rest =>
      b64Char (b / 4) :: b64Char (b % 4 * 16 + c / 16) ::
        b64Char (c % 16 * 4 + d / 64) :: b64Char (d % 64) :: b64encodeAux fuel rest

def b64encode (bs : List Nat) : Str := b64encodeAux bs.length bs

/-! ## UTF-8 encoding (model of `str.encode("utf-8")`) -/

def utf8Bytes (c : Char) : List Nat :=
  let n := c.toNat
  if n < 128 then [n]
  else if n < 2048 then [192 + n / 64, 128 + n % 64]
  else if n < 65536 then [224 + n / 4096, 128 + n / 64 % 64, 128 + n % 64]
  else [240 + n / 262144, 128 + n / 4096 % 64, 128 + n / 64 % 64, 128 + n % 64]

def strBytes (s : Str) : List Nat := List.flatten (s.map utf8Bytes)

/-! ## Decimal rendering and parsing (models of `str(int)` and `int(str)`) -/

/-- Decimal digit character of `m % 10`. -/
def digitChar (m : Nat) : Char := Char.ofNat (48 + m % 10)

def natReprAux : Nat → Nat → Str → Str
  | 0, _, acc => acc
  | fuel + 1, n, acc =>
    if n < 10 then digitChar n :: acc
    else natReprAux fuel (n / 10) (digitChar n :: acc)

/-- Decimal rendering of a natural number, as Python's `str` produces inside
an f-string. -/
def natRepr (n : Nat) : Str := natReprAux (n + 1) n []

def digitVal (c : Char) : Nat := c.toNat - 48

def parseNat (l : Str) : Nat := l.foldl (fun a c => a * 10 + digitVal c) 0

/-- Model of Python's `int(s)` on the strings reaching it here: succeeds on a
nonempty all-digit string, raises (`none`) otherwise. -/
def pyInt (l : Str) : Option Nat :=
  if l.isEmpty then none
  else if l.all Char.isDigit then some (parseNat l) else none

/-- Model of Python's `s.split(sep)` for a single-character separator. -/
def splitChar (c : Char) : Str → List Str
  | [] => [[]]
  | x :: xs =>
    if x = c then [] :: splitChar c xs
    else
      match splitChar c xs with
      | [] => [[x]]
      | y :: ys => (x :: y) :: ys

/-! ## External order identifier -/

/-- Modelled from the spec: the host platform's `Fulfillment.composed_id`
(not part of this repository) — "host-generated string combining an order's
primary key and a per-order fulfillment sequence number", with the `"-"`
separator the webhook resolver splits on. -/
def composed_id (pk seq : Nat) : Str := natRepr pk ++ '-' :: natRepr seq

/-- Model of `get_oto_order_id` (utils.py lines 51-52): the hash character
prepended to the fulfillment's composed id. -/
def get_oto_order_id (pk seq : Nat) : Str := '#' :: composed_id pk seq

/-- Model of the webhook resolver's identifier parsing (utils.py lines
121-124): `orderId = data.get("orderId").split("-")`, then
`int(orderId[0].split("#")[1])` and `int(orderId[1])`.  `none` models an
uncaught `IndexError`/`ValueError`. -/
def parseOrderId (s : Str) : Option (Nat × Nat) :=
  let parts := splitChar '-' s
  match parts.get? 1 with
  | none => none
  | some seqStr =>
    match (splitChar '#' (parts.headD [])).get? 1 with
    | none => none
    | some pkStr =>
      match pyInt pkStr, pyInt seqStr with
      | some pk, some seq => some (pk, seq)
      | _, _ => none

/-! ## Python dicts as association lists -/

/-- Set a key to a value, Python-dict style: replace in place if the key is
present, else append at the end. -/
def setKey [DecidableEq α] : List (α × β) → α → β → List (α × β)
  | [], k, v => [(k, v)]
  | (k', v') :: m, k, v =>
    if k' = k then (k, v) :: m else (k', v') :: setKey m k v

/-- Model of `dict.get(k)`. -/
def dictGet [DecidableEq α] : List (α × β) → α → Option β
  | [], _ => none
  | (k', v') :: m, k => if k' = k then some v' else dictGet m k

/-- Model of `dict.update(items)`: apply every key-value pair in order. -/
def applyAll [DecidableEq α] (m l : List (α × β)) : List (α × β) :=
  l.foldl (fun acc p => setKey acc p.1 p.2) m

/-! ## Webhook payload, signature verification (utils.py lines 100-114) -/

/-- The parsed JSON body of an inbound OTO webhook request.  `orderId`,
`status` and `timestamp` are accessed with `data[...]` by `verify_webhook`,
the remaining fields with `data.get(...)` and may be absent. -/
structure Payload where
  orderId : Str
  status : Str
  timestamp : Str
  signature : Option Str
  trackingNumber : Option Str
  printAWBURL : Option Str
  trackingURL : Option Str
  feedbackLink : Option Str
  dcStatus : Option Str
  deliveryCompany : Option Str
  deliverySlotDate : Option Str
deriving DecidableEq

/-- Result of `verify_webhook`: the Python function returns either `True` or
an `HttpResponseForbidden(body)`. -/
inductive VerifyResult
  | ok
  | forbidden (body : Str)
deriving DecidableEq

/-- Model of `config.get("PUBLIC_KEY_FOR_SIGNATURE", "")`. -/
def cfgKey (config : List (Str × Str)) : Str :=
  (dictGet config ("PUBLIC_KEY_FOR_SIGNATURE".data)).getD ("".data)

/-- The authenticated message: orderId, status and timestamp joined by
colons, as the f-string in utils.py line 104 builds it. -/
def msgOf (data : Payload) : Str :=
  data.orderId ++ ':' :: data.status ++ ':' :: data.timestamp

/-- The signature `verify_webhook` computes:
`base64.b64encode(hmac.new(msg=..., digestmod=sha256, key=...).digest())`. -/
def expectedSig (key : Str) (data : Payload) : Str :=
  b64encode (hmacSha256 (strBytes key) (strBytes (msgOf data)))

/-- Model of `verify_webhook` (utils.py lines 100-114). -/
def verify_webhook (data : Payload) (config : List (Str × Str)) : VerifyResult :=
  if some (expectedSig (cfgKey config) data) = data.signature then .ok
  else .forbidden ("Invalid signature".data)

/-! ## Webhook handler (utils.py lines 117-160) -/

/-- A persisted fulfillment as the handler sees it.  `ρ` stands for all the
fields the handler never touches (`save(update_fields=["tracking_number",
"metadata"])` persists only those two). -/
structure Fulfillment (ρ : Type) where
  order_pk : Nat
  fulfillment_order : Nat
  tracking_number : Str
  metadata : List (Str × Str)
  rest : ρ
deriving DecidableEq

/-- One invocation of the host's `cancel_fulfillment` action, recording the
keyword arguments the handler passes (utils.py lines 146-152). -/
structure CancelCall (ρ : Type) where
  user_email : Str
  warehouse : Option Str
  app : Option Str
  fulfillment : Fulfillment ρ
deriving DecidableEq

structure HttpResp where
  status_code : Nat
  body : Str
deriving DecidableEq

/-- The observable outcome of `handle_webhook`: the HTTP response, the
persisted fulfillments afterwards, and the cancellation actions invoked. -/
structure HandleResult (ρ : Type) where
  resp : HttpResp
  fulfillments : List (Fulfillment ρ)
  cancels : List (CancelCall ρ)
deriving DecidableEq

/-- The lookup predicate of
`Fulfillment.objects.filter(order__pk=..., fulfillment_order=...)`. -/
def fulfillmentMatches (pk seq : Nat) (f : Fulfillment ρ) : Bool :=
  f.order_pk = pk && f.fulfillment_order = seq

/-- Replace the first element satisfying `p` (the effect of `save` on the
row `filter(...).first()` returned). -/
def replaceFirst (p : α → Bool) (a : α) : List α → List α
  | [] => []
  | x :: xs => if p x then a :: xs else x :: replaceFirst p a xs

/-- The seven metadata items of `store_value_in_metadata` (utils.py lines
129-139), in dict-literal order. -/
def sevenItems (data : Payload) : List (Str × Str) :=
  [("otoStatus".data, data.status),
   ("printAWBURL".data, data.printAWBURL.getD ("".data)),
   ("trackingURL".data, data.trackingURL.getD ("".data)),
   ("feedbackLink".data, data.feedbackLink.getD ("".data)),
   ("shippingCompanyStatus".data, data.dcStatus.getD ("".data)),
   ("deliveryCompany".data, data.deliveryCompany.getD ("".data)),
   ("deliverySlotDate".data, data.deliverySlotDate.getD ("".data))]

/-- Modelled from the spec: the host platform's
`Fulfillment.store_value_in_metadata(items)` (not part of this repository)
merges the items into the metadata mapping — "merge, not replace",
"preserving any unrelated pre-existing metadata keys" — i.e. Python
`dict.update`. -/
def store_value_in_metadata (m : List (Str × Str)) (data : Payload) :
    List (Str × Str) :=
  applyAll m (sevenItems data)

/-- Model of `handle_webhook` (utils.py lines 117-160).  `none` models an
uncaught exception while parsing `orderId` (a 5xx in the original). -/
def handle_webhook (fs : List (Fulfillment ρ)) (data : Payload)
    (config : List (Str × Str)) : Option (HandleResult ρ) :=
  if verify_webhook data config = VerifyResult.ok then
    match parseOrderId data.orderId with
    | none => none
    | some (pk, seq) =>
      match fs.find? (fulfillmentMatches pk seq) with
      | some f =>
        let f' : Fulfillment ρ :=
          { f with tracking_number := data.trackingNumber.getD ("".data),
                   metadata := store_value_in_metadata f.metadata data }
        let fs' := replaceFirst (fulfillmentMatches pk seq) f' fs
        let cancels : List (CancelCall ρ) :=
          if data.status = "canceled".data then
            [⟨"admin@example.com".data, none, none, f'⟩]
          else []
        some ⟨⟨200, "OK".data⟩, fs', cancels⟩
      | none =>
        some ⟨⟨200, "Fulfillment ".data ++ data.orderId ++ " not found))".data⟩,
          fs, []⟩
  else some ⟨⟨403, "Webhook is not verified!".data⟩, fs, []⟩

/-! ## Outbound payload builder (utils.py lines 19-97)

Money amounts are modelled as exact rationals; Python's `float(...)`
conversions are treated as the identity on the value. -/

structure Address where
  country_code : Str
  postal_code : Str
  street_address_1 : Str
  street_address_2 : Str
  city : Str
  phone : Str
  city_area : Str
deriving DecidableEq

/-- The order fields read by the builder.  `last_payment_gateway` is
`order.get_last_payment().gateway` (`none` when there is no payment),
`user_full_name` is `order.user.get_full_name()` when a user exists. -/
structure OrderInfo where
  currency : Str
  checkout_token : Str
  customer_note : Str
  customer_email : Str
  shipping_price_net_amount : ℚ
  total_gross_amount : ℚ
  subtotal_net : ℚ
  fulfillments_count : Nat
  last_payment_gateway : Option Str
  shipping_address : Option Address
  user_full_name : Option Str
deriving DecidableEq

/-- The order-line fields read through `line.order_line`.
`first_image_url` flattens `variant.product.get_first_image().image.url`. -/
structure OrderLine where
  product_sku : Str
  product_name : Str
  variant_id : Nat
  total_price_net_amount : ℚ
  unit_price_net_amount : ℚ
  first_image_url : Option Str
deriving DecidableEq

structure FulfillmentLine where
  quantity : Nat
  order_line : OrderLine
deriving DecidableEq

structure DateTimeParts where
  day : Nat
  month : Nat
  year : Nat
  hour : Nat
  minute : Nat
deriving DecidableEq

/-- The fulfillment aggregate the builder reads. -/
structure OutFulfillment where
  order_pk : Nat
  fulfillment_order : Nat
  lines : List FulfillmentLine
  order : OrderInfo
  created_at : DateTimeParts
deriving DecidableEq

structure CustomerData where
  email : Str
  country : Str
  postcode : Str
  address : Str
  name : Str
  city : Str
  mobile : Str
  district : Str
deriving DecidableEq

structure ItemData where
  quantity : Nat
  sku : Str
  name : Str
  productId : Nat
  price : ℚ
  image : Str
deriving DecidableEq

structure OrderData where
  storeName : Str
  shippingAmount : ℚ
  currency : Str
  ref1 : Str
  shippingNotes : Str
  payment_method : Str
  orderId : Str
  items : List ItemData
  customer : CustomerData
  subtotal : ℚ
  amount_due : ℚ
  amount : ℚ
  orderDate : Str
deriving DecidableEq

/-- Model of `get_order_customer_data` (utils.py lines 19-30).  `none`
models the `AttributeError` raised when `order.shipping_address` is `None`
(lines 22-25 dereference it unguarded); `address` reflects Python's falsy
`or` on the two street strings. -/
def get_order_customer_data (order : OrderInfo) : Option CustomerData :=
  match order.shipping_address with
  | none => none
  | some a =>
    some { email := order.customer_email,
           country := a.country_code,
           postcode := a.postal_code,
           address := if a.street_address_1.isEmpty then a.street_address_2
             else a.street_address_1,
           name := order.user_full_name.getD ("".data),
           city := a.city,
           mobile := a.phone,
           district := a.city_area }

/-- Model of `get_order_items_data` (utils.py lines 33-48); `site_domain`
stands for `Site.objects.get_current().domain`. -/
def get_order_items_data (site_domain : Str) (fulfillment : OutFulfillment) :
    List ItemData :=
  fulfillment.lines.map fun line =>
    { quantity := line.quantity,
      sku := line.order_line.product_sku,
      name := line.order_line.product_name,
      productId := line.order_line.variant_id,
      price := line.order_line.total_price_net_amount,
      image := match line.order_line.first_image_url with
        | some u => site_domain ++ u
        | none => "".data }

/-- Zero-padded two-digit rendering, as `strftime("%d")` / `"%m"` produce. -/
def pad2 (n : Nat) : Str := if n < 10 then '0' :: natRepr n else natRepr n

/-- Four-digit year rendering of `strftime("%Y")`. -/
def pad4 (n : Nat) : Str :=
  if n < 10 then '0' :: '0' :: '0' :: natRepr n
  else if n < 100 then '0' :: '0' :: natRepr n
  else if n < 1000 then '0' :: natRepr n
  else natRepr n

/-- The order date string `"%s %s:%s" % (strftime("%d/%m/%Y"), hour, minute)`
(utils.py lines 84-89): zero-padded date, unpadded hour and minute. -/
def orderDateStr (t : DateTimeParts) : Str :=
  pad2 t.day ++ '/' :: pad2 t.month ++ '/' :: pad4 t.year ++
    ' ' :: natRepr t.hour ++ ':' :: natRepr t.minute

/-- Model of `generate_create_order_data` (utils.py lines 55-91).  `none`
models the `AttributeError` raised when the fulfillment has no lines
(`lines.last()` is `None`, dereferenced at line 81), when the order has no
payment (line 60), or when it has no shipping address (line 22). -/
def generate_create_order_data (site_domain : Str) (fulfillment : OutFulfillment) :
    Option OrderData :=
  match fulfillment.lines.getLast?, fulfillment.order.last_payment_gateway,
      get_order_customer_data fulfillment.order with
  | some fulfillment_line, some gateway, some customer =>
    let is_cod_order := gateway = "payments.cash".data
    let shipping_amount : ℚ :=
      if fulfillment.order.fulfillments_count = 1 then
        fulfillment.order.shipping_price_net_amount
      else 0
    some { storeName := "WeCre8".data,
           shippingAmount := shipping_amount,
           currency := fulfillment.order.currency,
           ref1 := fulfillment.order.checkout_token,
           shippingNotes := fulfillment.order.customer_note,
           payment_method := if is_cod_order then ("cod".data) else ("paid".data),
           orderId := get_oto_order_id fulfillment.order_pk
             fulfillment.fulfillment_order,
           items := get_order_items_data site_domain fulfillment,
           customer := customer,
           subtotal := fulfillment.order.subtotal_net,
           amount_due := if is_cod_order then fulfillment.order.total_gross_amount
             else 0,
           amount := (fulfillment_line.quantity : ℚ) *
             fulfillment_line.order_line.unit_price_net_amount,
           orderDate := orderDateStr fulfillment.created_at }
  | _, _, _ => none

/-- Model of `generate_cancel_order_and_return_link_data` (utils.py lines
94-97). -/
def generate_cancel_order_and_return_link_data (pk seq : Nat) : List (Str × Str) :=
  [("orderId".data, get_oto_order_id pk seq)]

/-- The seven metadata keys written by the handler. -/
def sevenKeys : List Str :=
  ["otoStatus".data, "printAWBURL".data, "trackingURL".data,
   "feedbackLink".data, "shippingCompanyStatus".data, "deliveryCompany".data,
   "deliverySlotDate".data]

/-! ## Concrete fixtures used by the witness theorems -/

def cfgEx : List (Str × Str) :=
  [("PUBLIC_KEY_FOR_SIGNATURE".data, "secret".data)]

def payloadBase : Payload :=
  { orderId := "#7-1".data, status := "delivered".data,
    timestamp := "1650000000".data, signature := none,
    trackingNumber := some ("TRACK99".data),
    printAWBURL := some ("http://awb.example".data),
    trackingURL := none, feedbackLink := none, dcStatus := none,
    deliveryCompany := none, deliverySlotDate := none }

/-- `payloadBase` carrying the signature that verifies under key "secret". -/
def payloadEx : Payload :=
  { payloadBase with signature := some (expectedSig ("secret".data) payloadBase) }

def payloadCanBase : Payload := { payloadBase with status := "canceled".data }

/-- A correctly signed payload with status "canceled". -/
def payloadCan : Payload :=
  { payloadCanBase with
    signature := some (expectedSig ("secret".data) payloadCanBase) }

/-- A payload whose signature was produced with the empty-string secret. -/
def payloadEmptyKey : Payload :=
  { payloadBase with signature := some (expectedSig ("".data) payloadBase) }

def fEx : Fulfillment Unit :=
  { order_pk := 7, fulfillment_order := 1, tracking_number := "OLD".data,
    metadata := [("foo".data, "bar".data)], rest := () }

def fOther : Fulfillment Unit :=
  { order_pk := 9, fulfillment_order := 1, tracking_number := "X".data,
    metadata := [], rest := () }

def addrEx : Address :=
  { country_code := "SA".data, postal_code := "12345".data,
    street_address_1 := "King Fahd Rd".data, street_address_2 := "".data,
    city := "Riyadh".data, phone := "+966500000000".data,
    city_area := "Olaya".data }

def orderLineEx : OrderLine :=
  { product_sku := "SKU1".data, product_name := "Widget".data,
    variant_id := 11, total_price_net_amount := 2,
    unit_price_net_amount := 2, first_image_url := none }

def orderLineEx2 : OrderLine :=
  { product_sku := "SKU2".data, product_name := "Gadget".data,
    variant_id := 12, total_price_net_amount := 15,
    unit_price_net_amount := 5, first_image_url := some ("/img/2.png".data) }

def orderInfoEx : OrderInfo :=
  { currency := "SAR".data, checkout_token := "tok-1".data,
    customer_note := "".data, customer_email := "c@example.com".data,
    shipping_price_net_amount := 25, total_gross_amount := 100,
    subtotal_net := 80, fulfillments_count := 1,
    last_payment_gateway := some ("payments.cash".data),
    shipping_address := some addrEx, user_full_name := some ("A B".data) }

/-- A single-fulfillment order's fulfillment with two lines. -/
def outFEx : OutFulfillment :=
  { order_pk := 7, fulfillment_order := 1,
    lines := [⟨1, orderLineEx⟩, ⟨3, orderLineEx2⟩],
    order := orderInfoEx,
    created_at := ⟨5, 3, 2022, 9, 7⟩ }

/-- The same fulfillment on an order with two fulfillments. -/
def outFEx2 : OutFulfillment :=
  { outFEx with order := { orderInfoEx with fulfillments_count := 2 } }

/-- `payloadEx` with the orderId mutated and the old signature kept. -/
def payloadMut : Payload := { payloadEx with orderId := "#7-2".data }

/-- Payload with a given orderId and signature, fixed status "s" and
timestamp "t", and no optional fields; used in the pigeonhole argument. -/
def mkPayload (o : Str) (sig : Option Str) : Payload :=
  ⟨o, "s".data, "t".data, sig, none, none, none, none, none, none, none⟩

/-- The evaluated create-order payload for `outFEx`. -/
def orderDataEx : OrderData :=
  (generate_create_order_data ("example.com".data) outFEx).get (by decide)

/-- The evaluated create-order payload for `outFEx2`. -/
def orderDataEx2 : OrderData :=
  (generate_create_order_data ("example.com".data) outFEx2).get (by decide)

/-! ## Lemmas about dict operations -/

/-- The keys of an association list, in order. -/
def keysOf (m : List (α × β)) : List α := m.map Prod.fst

theorem keysOf_nil {α β : Type} : keysOf ([] : List (α × β)) = [] := rfl

theorem keysOf_cons {α β : Type} (a : α) (b : β) (m : List (α × β)) :
    keysOf ((a, b) :: m) = a :: keysOf m := rfl

section DictLemmas

variable {α β : Type} [DecidableEq α]

theorem dictGet_setKey_self (m : List (α × β)) (k : α) (v : β) :
    dictGet (setKey m k v) k = some v := by
  induction m with
  | nil => simp [setKey, dictGet]
  | cons p m ih =>
    obtain ⟨a, b⟩ := p
    by_cases h : a = k
    · simp [setKey, h, dictGet]
    · simp [setKey, h, dictGet, ih]

theorem dictGet_setKey_ne (m : List (α × β)) (k k' : α) (v : β) (h : k' ≠ k) :
    dictGet (setKey m k v) k' = dictGet m k' := by
  have h' : ¬(k = k') := fun hk => h hk.symm
  induction m with
  | nil => simp [setKey, dictGet, h']
  | cons p m ih =>
    obtain ⟨a, b⟩ := p
    by_cases ha : a = k
    · subst ha
      simp [setKey, dictGet, h']
    · by_cases ha' : a = k'
      · subst ha'
        simp [setKey, ha, dictGet, h]
      · simp [setKey, ha, dictGet, ha', ih]

theorem setKey_absorb (m : List (α × β)) (k : α) (v w : β) :
    setKey (setKey m k v) k w = setKey m k w := by
  induction m with
  | nil => simp [setKey]
  | cons p m ih =>
    obtain ⟨a, b⟩ := p
    by_cases h : a = k
    · simp [setKey, h]
    · simp [setKey, h, ih]

theorem setKey_eq_of_dictGet (m : List (α × β)) (k : α) (v : β)
    (h : dictGet m k = some v) : setKey m k v = m := by
  induction m with
  | nil => simp [dictGet] at h
  | cons p m ih =>
    obtain ⟨a, b⟩ := p
    by_cases ha : a = k
    · subst ha
      simp [dictGet] at h
      simp [setKey, h]
    · simp [dictGet, ha] at h
      simp [setKey, ha, ih h]

theorem mem_keysOf_setKey_self (m : List (α × β)) (k : α) (v : β) :
    k ∈ keysOf (setKey m k v) := by
  induction m with
  | nil => simp [setKey, keysOf]
  | cons p m ih =>
    obtain ⟨a, b⟩ := p
    by_cases h : a = k
    · simp [setKey, h, keysOf_cons]
    · rw [show setKey ((a, b) :: m) k v = (a, b) :: setKey m k v by
        simp [setKey, h], keysOf_cons]
      exact List.mem_cons_of_mem _ ih

theorem mem_keysOf_setKey_of_mem (m : List (α × β)) (k k' : α) (v : β)
    (h : k' ∈ keysOf m) : k' ∈ keysOf (setKey m k v) := by
  induction m with
  | nil => simp [keysOf] at h
  | cons p m ih =>
    obtain ⟨a, b⟩ := p
    rw [keysOf_cons] at h
    by_cases ha : a = k
    · subst ha
      rw [show setKey ((a, b) :: m) a v = (a, v) :: m by simp [setKey],
        keysOf_cons]
      exact h
    · rw [show setKey ((a, b) :: m) k v = (a, b) :: setKey m k v by
        simp [setKey, ha], keysOf_cons]
      rcases List.mem_cons.mp h with h | h
      · exact List.mem_cons.mpr (Or.inl h)
      · exact List.mem_cons_of_mem _ (ih h)

theorem mem_keysOf_setKey_iff (m : List (α × β)) (k k' : α) (v : β) :
    k' ∈ keysOf (setKey m k v) ↔ k' ∈ keysOf m ∨ k' = k := by
  induction m with
  | nil => simp [setKey, keysOf]
  | cons p m ih =>
    obtain ⟨a, b⟩ := p
    by_cases ha : a = k
    · subst ha
      rw [show setKey ((a, b) :: m) a v = (a, v) :: m by simp [setKey],
        keysOf_cons, keysOf_cons]
      simp
      tauto
    · rw [show setKey ((a, b) :: m) k v = (a, b) :: setKey m k v by
        simp [setKey, ha], keysOf_cons, keysOf_cons]
      simp [ih]
      tauto

theorem setKey_comm (m : List (α × β)) (k k' : α) (v v' : β) (hne : k ≠ k')
    (hk : k ∈ keysOf m) :
    setKey (setKey m k v) k' v' = setKey (setKey m k' v') k v := by
  have hne' : ¬(k' = k) := fun h => hne h.symm
  induction m with
  | nil => simp [keysOf] at hk
  | cons p m ih =>
    obtain ⟨a, b⟩ := p
    by_cases ha : a = k
    · subst ha
      simp [setKey, hne, hne']
    · by_cases ha' : a = k'
      · subst ha'
        simp [setKey, ha, hne, hne']
      · rw [keysOf_cons] at hk
        rcases List.mem_cons.mp hk with hk | hk
        · exact absurd hk.symm ha
        · simp [setKey, ha, ha', ih hk]

theorem applyAll_cons (m : List (α × β)) (k : α) (v : β) (l : List (α × β)) :
    applyAll m ((k, v) :: l) = applyAll (setKey m k v) l := rfl

theorem dictGet_applyAll_not_mem (l m : List (α × β)) (k : α)
    (h : k ∉ keysOf l) : dictGet (applyAll m l) k = dictGet m k := by
  induction l generalizing m with
  | nil => rfl
  | cons p l ih =>
    obtain ⟨a, b⟩ := p
    rw [keysOf_cons] at h
    rw [applyAll_cons, ih _ (fun hm => h (List.mem_cons_of_mem _ hm)),
      dictGet_setKey_ne _ _ _ _ (fun hk => h (List.mem_cons.mpr (Or.inl hk)))]

theorem mem_keysOf_applyAll_of_mem (l m : List (α × β)) (k : α)
    (h : k ∈ keysOf m) : k ∈ keysOf (applyAll m l) := by
  induction l generalizing m with
  | nil => exact h
  | cons p l ih =>
    obtain ⟨a, b⟩ := p
    rw [applyAll_cons]
    exact ih _ (mem_keysOf_setKey_of_mem _ _ _ _ h)

theorem mem_keysOf_applyAll_iff (l m : List (α × β)) (k : α) :
    k ∈ keysOf (applyAll m l) ↔ k ∈ keysOf m ∨ k ∈ keysOf l := by
  induction l generalizing m with
  | nil => simp [applyAll, keysOf]
  | cons p l ih =>
    obtain ⟨a, b⟩ := p
    rw [applyAll_cons, ih, mem_keysOf_setKey_iff, keysOf_cons]
    simp
    tauto

theorem applyAll_setKey_cancel (l : List (α × β)) (n : List (α × β)) (k : α)
    (v : β) (hk : k ∈ keysOf n) (hl : k ∈ keysOf l) :
    applyAll (setKey n k v) l = applyAll n l := by
  induction l generalizing n v with
  | nil => simp [keysOf] at hl
  | cons p l ih =>
    obtain ⟨k₁, v₁⟩ := p
    by_cases h : k₁ = k
    · subst h
      rw [applyAll_cons, applyAll_cons, setKey_absorb]
    · rw [keysOf_cons] at hl
      rcases List.mem_cons.mp hl with hl | hl
      · exact absurd hl.symm h
      · rw [applyAll_cons, applyAll_cons,
          setKey_comm _ _ _ _ _ (fun hk' => h hk'.symm) hk,
          ih _ _ (mem_keysOf_setKey_of_mem _ _ _ _ hk) hl]

theorem applyAll_idem (l m : List (α × β)) :
    applyAll (applyAll m l) l = applyAll m l := by
  induction l generalizing m with
  | nil => rfl
  | cons p l ih =>
    obtain ⟨k, v⟩ := p
    rw [applyAll_cons, applyAll_cons]
    by_cases hl : k ∈ keysOf l
    · rw [applyAll_setKey_cancel l _ k v
        (mem_keysOf_applyAll_of_mem _ _ _ (mem_keysOf_setKey_self m k v)) hl, ih]
    · have hget : dictGet (applyAll (setKey m k v) l) k = some v := by
        rw [dictGet_applyAll_not_mem _ _ _ hl, dictGet_setKey_self]
      rw [setKey_eq_of_dictGet _ _ _ hget, ih]

end DictLemmas

/-! ## Lemmas about decimal rendering and splitting -/

theorem digitChar_props (m : Nat) :
    (digitChar m).isDigit = true ∧ digitChar m ≠ '-' ∧ digitChar m ≠ '#' ∧
      digitVal (digitChar m) = m % 10 := by
  have h : m % 10 < 10 := Nat.mod_lt _ (by omega)
  unfold digitChar digitVal
  generalize m % 10 = d at h ⊢
  interval_cases d <;> exact ⟨by decide, by decide, by decide, by decide⟩

theorem digitChar_isDigit (m : Nat) : (digitChar m).isDigit = true :=
  (digitChar_props m).1

theorem digitChar_ne_dash (m : Nat) : digitChar m ≠ '-' :=
  (digitChar_props m).2.1

theorem digitChar_ne_hash (m : Nat) : digitChar m ≠ '#' :=
  (digitChar_props m).2.2.1

theorem digitVal_digitChar (m : Nat) : digitVal (digitChar m) = m % 10 :=
  (digitChar_props m).2.2.2

theorem natReprAux_spec (n : Nat) : ∀ (fuel : Nat) (acc : Str), n < fuel →
    natReprAux fuel n acc = natRepr n ++ acc := by
  induction n using Nat.strong_induction_on with
  | _ n ih =>
    intro fuel acc hf
    match fuel, hf with
    | fuel + 1, _ =>
      by_cases h : n < 10
      · simp [natReprAux, h, natRepr]
      · have hdiv : n / 10 < n := Nat.div_lt_self (by omega) (by norm_num)
        have hfuel : n / 10 < fuel := by omega
        rw [show natReprAux (fuel + 1) n acc
            = natReprAux fuel (n / 10) (digitChar n :: acc) by
          simp [natReprAux, h]]
        rw [show natRepr n = natReprAux n (n / 10) [digitChar n] by
          simp [natRepr, natReprAux, h]]
        rw [ih _ hdiv fuel _ hfuel, ih _ hdiv n _ hdiv]
        simp

theorem natRepr_lt (n : Nat) (h : n < 10) : natRepr n = [digitChar n] := by
  simp [natRepr, natReprAux, h]

theorem natRepr_ge (n : Nat) (h : 10 ≤ n) :
    natRepr n = natRepr (n / 10) ++ [digitChar n] := by
  have h' : ¬n < 10 := by omega
  have hdiv : n / 10 < n := Nat.div_lt_self (by omega) (by norm_num)
  rw [show natRepr n = natReprAux n (n / 10) [digitChar n] by
    simp [natRepr, natReprAux, h']]
  exact natReprAux_spec _ _ _ hdiv

theorem natRepr_ne_nil (n : Nat) : natRepr n ≠ [] := by
  by_cases h : n < 10
  · simp [natRepr_lt n h]
  · simp [natRepr_ge n (by omega)]

theorem natRepr_all_digit (n : Nat) : ∀ c ∈ natRepr n, c.isDigit = true := by
  induction n using Nat.strong_induction_on with
  | _ n ih =>
    by_cases h : n < 10
    · rw [natRepr_lt n h]
      intro c hc
      simp at hc
      exact hc ▸ digitChar_isDigit n
    · rw [natRepr_ge n (by omega)]
      intro c hc
      rcases List.mem_append.mp hc with hc | hc
      · exact ih _ (Nat.div_lt_self (by omega) (by norm_num)) c hc
      · simp at hc
        exact hc ▸ digitChar_isDigit n

theorem parseNat_append_digit (l : Str) (c : Char) :
    parseNat (l ++ [c]) = parseNat l * 10 + digitVal c := by
  simp [parseNat, List.foldl_append]

theorem parseNat_natRepr (n : Nat) : parseNat (natRepr n) = n := by
  induction n using Nat.strong_induction_on with
  | _ n ih =>
    by_cases h : n < 10
    · rw [natRepr_lt n h]
      simp [parseNat, digitVal_digitChar]
      omega
    · rw [natRepr_ge n (by omega), parseNat_append_digit,
        ih _ (Nat.div_lt_self (by omega) (by norm_num)), digitVal_digitChar]
      omega

theorem pyInt_natRepr (n : Nat) : pyInt (natRepr n) = some n := by
  have hne : (natRepr n).isEmpty = false := by
    cases hcase : natRepr n with
    | nil => exact absurd hcase (natRepr_ne_nil n)
    | cons a l => rfl
  have hall : (natRepr n).all Char.isDigit = true :=
    List.all_eq_true.mpr (natRepr_all_digit n)
  simp [pyInt, hne, hall, parseNat_natRepr n]

theorem splitChar_not_mem (c : Char) (l : Str) (h : c ∉ l) :
    splitChar c l = [l] := by
  induction l with
  | nil => rfl
  | cons x xs ih =>
    have hx : ¬x = c := fun hx => h (hx ▸ List.mem_cons_self x xs)
    rw [show splitChar c (x :: xs)
        = match splitChar c xs with
          | [] => [[x]]
          | y :: ys => (x :: y) :: ys by simp [splitChar, hx]]
    rw [ih (fun hm => h (List.mem_cons_of_mem _ hm))]

theorem splitChar_append (c : Char) (l₁ l₂ : Str) (h : c ∉ l₁) :
    splitChar c (l₁ ++ c :: l₂) = l₁ :: splitChar c l₂ := by
  induction l₁ with
  | nil =>
    simp [splitChar]
  | cons x xs ih =>
    have hx : ¬x = c := fun hx => h (hx ▸ List.mem_cons_self x xs)
    rw [List.cons_append,
      show splitChar c (x :: (xs ++ c :: l₂))
        = match splitChar c (xs ++ c :: l₂) with
          | [] => [[x]]
          | y :: ys => (x :: y) :: ys by simp [splitChar, hx]]
    rw [ih (fun hm => h (List.mem_cons_of_mem _ hm))]

theorem dash_not_mem_natRepr (n : Nat) : '-' ∉ natRepr n := by
  intro h
  have := natRepr_all_digit n '-' h
  simp at this

theorem hash_not_mem_natRepr (n : Nat) : '#' ∉ natRepr n := by
  intro h
  have := natRepr_all_digit n '#' h
  simp at this

/-! ## Lemmas about `replaceFirst` and `find?` -/

theorem find?_replaceFirst (p : α → Bool) (a b : α) (l : List α)
    (h : l.find? p = some a) (hb : p b = true) :
    (replaceFirst p b l).find? p = some b := by
  induction l with
  | nil => simp at h
  | cons x xs ih =>
    by_cases hx : p x
    · simp [replaceFirst, hx, List.find?_cons_of_pos _ hb]
    · rw [List.find?_cons_of_neg _ (by simpa using hx)] at h
      simp [replaceFirst, hx, List.find?_cons_of_neg _ (by simpa using hx), ih h]

theorem replaceFirst_replaceFirst (p : α → Bool) (a : α) (l : List α)
    (ha : p a = true) :
    replaceFirst p a (replaceFirst p a l) = replaceFirst p a l := by
  induction l with
  | nil => rfl
  | cons x xs ih =>
    by_cases hx : p x
    · simp [replaceFirst, hx, ha]
    · simp [replaceFirst, hx, ih]

/-- C5: the external order identifier built by `get_oto_order_id` round-trips
through the webhook resolver's splitting rule: splitting on `"-"`, then
splitting the first part on `"#"`, recovers exactly the
`(order primary key, fulfillment sequence)` pair. -/
theorem oto_order_id_roundtrip (pk seq : Nat) :
    parseOrderId (get_oto_order_id pk seq) = some (pk, seq) := by
  have hsplit1 : splitChar '-' (get_oto_order_id pk seq)
      = ('#' :: natRepr pk) :: [natRepr seq] := by
    rw [show get_oto_order_id pk seq
        = ('#' :: natRepr pk) ++ '-' :: natRepr seq by
      simp [get_oto_order_id, composed_id]]
    rw [splitChar_append '-' ('#' :: natRepr pk) (natRepr seq)
      (by
        intro hmem
        rcases List.mem_cons.mp hmem with hmem | hmem
        · exact absurd hmem (by decide)
        · exact dash_not_mem_natRepr pk hmem)]
    rw [splitChar_not_mem '-' (natRepr seq) (dash_not_mem_natRepr seq)]
  rw [parseOrderId, hsplit1]
  simp only [List.get?, List.headD]
  rw [splitChar_not_mem '#' (natRepr pk) (hash_not_mem_natRepr pk)]
  simp only [List.get?]
  rw [pyInt_natRepr pk, pyInt_natRepr seq]

/-! ## Signature-verification lemmas -/

theorem expectedSig_congr (k : Str) (p p' : Payload) (h : msgOf p = msgOf p') :
    expectedSig k p = expectedSig k p' := by
  unfold expectedSig
  rw [h]

theorem verify_webhook_of_sig (data : Payload) (config : List (Str × Str))
    (h : data.signature = some (expectedSig (cfgKey config) data)) :
    verify_webhook data config = VerifyResult.ok := by
  unfold verify_webhook
  rw [if_pos h.symm]

theorem verify_payloadEx : verify_webhook payloadEx cfgEx = VerifyResult.ok := by
  apply verify_webhook_of_sig
  rw [show payloadEx.signature = some (expectedSig ("secret".data) payloadBase)
    from rfl]
  rw [show cfgKey cfgEx = "secret".data from rfl]
  rw [expectedSig_congr ("secret".data) payloadEx payloadBase rfl]

theorem verify_payloadCan : verify_webhook payloadCan cfgEx = VerifyResult.ok := by
  apply verify_webhook_of_sig
  rw [show payloadCan.signature = some (expectedSig ("secret".data) payloadCanBase)
    from rfl]
  rw [show cfgKey cfgEx = "secret".data from rfl]
  rw [expectedSig_congr ("secret".data) payloadCan payloadCanBase rfl]

theorem verify_payloadBase_fails :
    verify_webhook payloadBase cfgEx ≠ VerifyResult.ok := by
  unfold verify_webhook
  rw [if_neg (by simp [payloadBase])]
  exact fun h => VerifyResult.noConfusion h

/-! ## Generic behaviour of the webhook handler -/

/-- Unfolding of the handler on the fully resolved path: signature verified,
identifier parsed, fulfillment found. -/
theorem handle_webhook_resolved {ρ : Type} (fs : List (Fulfillment ρ))
    (data : Payload) (config : List (Str × Str)) (pk seq : Nat)
    (f : Fulfillment ρ)
    (hv : verify_webhook data config = VerifyResult.ok)
    (hp : parseOrderId data.orderId = some (pk, seq))
    (hf : fs.find? (fulfillmentMatches pk seq) = some f) :
    handle_webhook fs data config = some
      ⟨⟨200, "OK".data⟩,
       replaceFirst (fulfillmentMatches pk seq)
         { f with tracking_number := data.trackingNumber.getD ("".data),
                  metadata := store_value_in_metadata f.metadata data } fs,
       if data.status = "canceled".data then
         [⟨"admin@example.com".data, none, none,
           { f with tracking_number := data.trackingNumber.getD ("".data),
                    metadata := store_value_in_metadata f.metadata data }⟩]
       else []⟩ := by
  simp only [handle_webhook, hv, hp, hf, if_true, reduceIte]

/-- C2: a request whose signature does not verify gets a 403 forbidden
response, the stored fulfillments are untouched and no cancellation action
is invoked. -/
theorem handle_webhook_forbidden_no_mutation {ρ : Type}
    (fs : List (Fulfillment ρ)) (data : Payload) (config : List (Str × Str))
    (h : verify_webhook data config ≠ VerifyResult.ok) :
    handle_webhook fs data config =
      some ⟨⟨403, "Webhook is not verified!".data⟩, fs, []⟩ := by
  unfold handle_webhook
  rw [if_neg h]

/-- Witness for C2: a concrete payload with a missing signature is rejected
with 403 and the state `[fEx]` is returned unchanged with no cancellations. -/
theorem handle_webhook_forbidden_no_mutation_witness :
    handle_webhook [fEx] payloadBase cfgEx =
      some ⟨⟨403, "Webhook is not verified!".data⟩, [fEx], []⟩ :=
  handle_webhook_forbidden_no_mutation [fEx] payloadBase cfgEx
    verify_payloadBase_fails

/-- C6: a verified webhook whose parsed pair matches no fulfillment performs
no mutation and returns a 200 response — but the body the code produces is
"Fulfillment #7-1 not found))", with a stray "))" (utils.py line 157), not
the "Fulfillment #7-1 not found" the specification states. -/
theorem handle_webhook_not_found_eval :
    handle_webhook [fOther] payloadEx cfgEx =
      some ⟨⟨200, "Fulfillment #7-1 not found))".data⟩, [fOther], []⟩ := by
  have hp : parseOrderId payloadEx.orderId = some (7, 1) := by decide
  have hf : ([fOther] : List (Fulfillment Unit)).find?
      (fulfillmentMatches 7 1) = none := by decide
  simp only [handle_webhook, verify_payloadEx, hp, hf, if_true, reduceIte]
  decide

/-- C3: on a verified, resolved webhook the handler updates tracking number
and metadata first, and then — exactly when the status is "canceled" —
invokes the cancellation action exactly once, for the updated fulfillment,
with the service-account user `admin@example.com`, `warehouse = None` and
`app = None`; for any other status no cancellation action is invoked. -/
theorem handle_webhook_cancellation_cascade {ρ : Type}
    (fs : List (Fulfillment ρ)) (data : Payload) (config : List (Str × Str))
    (pk seq : Nat) (f : Fulfillment ρ)
    (hv : verify_webhook data config = VerifyResult.ok)
    (hp : parseOrderId data.orderId = some (pk, seq))
    (hf : fs.find? (fulfillmentMatches pk seq) = some f) :
    ∃ f' : Fulfillment ρ,
      f'.tracking_number = data.trackingNumber.getD ("".data) ∧
      f'.metadata = store_value_in_metadata f.metadata data ∧
      (data.status = "canceled".data →
        handle_webhook fs data config = some
          ⟨⟨200, "OK".data⟩, replaceFirst (fulfillmentMatches pk seq) f' fs,
           [⟨"admin@example.com".data, none, none, f'⟩]⟩) ∧
      (data.status ≠ "canceled".data →
        handle_webhook fs data config = some
          ⟨⟨200, "OK".data⟩, replaceFirst (fulfillmentMatches pk seq) f' fs,
           []⟩) := by
  refine ⟨{ f with tracking_number := data.trackingNumber.getD ("".data),
                   metadata := store_value_in_metadata f.metadata data },
    rfl, rfl, ?_, ?_⟩
  · intro hs
    rw [handle_webhook_resolved fs data config pk seq f hv hp hf, if_pos hs]
  · intro hs
    rw [handle_webhook_resolved fs data config pk seq f hv hp hf, if_neg hs]

/-- Witness for C3 at a concrete canceled payload and fulfillment store. -/
theorem handle_webhook_cancellation_cascade_witness :
    ∃ f' : Fulfillment Unit,
      f'.tracking_number = payloadCan.trackingNumber.getD ("".data) ∧
      f'.metadata = store_value_in_metadata fEx.metadata payloadCan ∧
      (payloadCan.status = "canceled".data →
        handle_webhook [fEx] payloadCan cfgEx = some
          ⟨⟨200, "OK".data⟩, replaceFirst (fulfillmentMatches 7 1) f' [fEx],
           [⟨"admin@example.com".data, none, none, f'⟩]⟩) ∧
      (payloadCan.status ≠ "canceled".data →
        handle_webhook [fEx] payloadCan cfgEx = some
          ⟨⟨200, "OK".data⟩, replaceFirst (fulfillmentMatches 7 1) f' [fEx],
           []⟩) :=
  handle_webhook_cancellation_cascade [fEx] payloadCan cfgEx 7 1 fEx
    verify_payloadCan (by decide) (by decide)

/-- C4: a verified, resolved webhook merges exactly the seven provider keys
into the fulfillment's metadata (all other keys keep their values), writes
the tracking number, and leaves every other fulfillment field — and the
rest of the store apart from that one record — unchanged. -/
theorem handle_webhook_metadata_merge {ρ : Type} (fs : List (Fulfillment ρ))
    (data : Payload) (config : List (Str × Str)) (pk seq : Nat)
    (f : Fulfillment ρ)
    (hv : verify_webhook data config = VerifyResult.ok)
    (hp : parseOrderId data.orderId = some (pk, seq))
    (hf : fs.find? (fulfillmentMatches pk seq) = some f) :
    ∃ f' : Fulfillment ρ,
      handle_webhook fs data config = some
        ⟨⟨200, "OK".data⟩, replaceFirst (fulfillmentMatches pk seq) f' fs,
         if data.status = "canceled".data then
           [⟨"admin@example.com".data, none, none, f'⟩] else []⟩ ∧
      f'.order_pk = f.order_pk ∧
      f'.fulfillment_order = f.fulfillment_order ∧
      f'.rest = f.rest ∧
      f'.tracking_number = data.trackingNumber.getD ("".data) ∧
      (∀ k : Str, k ∉ sevenKeys → dictGet f'.metadata k = dictGet f.metadata k) ∧
      (∀ k : Str, k ∈ keysOf f'.metadata ↔
        k ∈ keysOf f.metadata ∨ k ∈ sevenKeys) ∧
      dictGet f'.metadata ("otoStatus".data) = some data.status ∧
      dictGet f'.metadata ("printAWBURL".data) =
        some (data.printAWBURL.getD ("".data)) ∧
      dictGet f'.metadata ("trackingURL".data) =
        some (data.trackingURL.getD ("".data)) ∧
      dictGet f'.metadata ("feedbackLink".data) =
        some (data.feedbackLink.getD ("".data)) ∧
      dictGet f'.metadata ("shippingCompanyStatus".data) =
        some (data.dcStatus.getD ("".data)) ∧
      dictGet f'.metadata ("deliveryCompany".data) =
        some (data.deliveryCompany.getD ("".data)) ∧
      dictGet f'.metadata ("deliverySlotDate".data) =
        some (data.deliverySlotDate.getD ("".data)) := by
  have hunf : store_value_in_metadata f.metadata data =
      setKey (setKey (setKey (setKey (setKey (setKey (setKey f.metadata
        "otoStatus".data data.status)
        "printAWBURL".data (data.printAWBURL.getD ("".data)))
        "trackingURL".data (data.trackingURL.getD ("".data)))
        "feedbackLink".data (data.feedbackLink.getD ("".data)))
        "shippingCompanyStatus".data (data.dcStatus.getD ("".data)))
        "deliveryCompany".data (data.deliveryCompany.getD ("".data)))
        "deliverySlotDate".data (data.deliverySlotDate.getD ("".data)) := rfl
  have hkeys : keysOf (sevenItems data) = sevenKeys := rfl
  have hnm : ∀ k : Str, k ∉ sevenKeys →
      dictGet (store_value_in_metadata f.metadata data) k =
        dictGet f.metadata k := by
    intro k hk
    exact dictGet_applyAll_not_mem (sevenItems data) f.metadata k (hkeys ▸ hk)
  have hkiff : ∀ k : Str, k ∈ keysOf (store_value_in_metadata f.metadata data) ↔
      k ∈ keysOf f.metadata ∨ k ∈ sevenKeys := by
    intro k
    rw [show store_value_in_metadata f.metadata data
        = applyAll f.metadata (sevenItems data) from rfl,
      mem_keysOf_applyAll_iff, hkeys]
  have h1 : dictGet (store_value_in_metadata f.metadata data)
      "otoStatus".data = some data.status := by
    rw [hunf, dictGet_setKey_ne _ _ _ _ (by decide),
      dictGet_setKey_ne _ _ _ _ (by decide),
      dictGet_setKey_ne _ _ _ _ (by decide),
      dictGet_setKey_ne _ _ _ _ (by decide),
      dictGet_setKey_ne _ _ _ _ (by decide),
      dictGet_setKey_ne _ _ _ _ (by decide), dictGet_setKey_self]
  have h2 : dictGet (store_value_in_metadata f.metadata data)
      "printAWBURL".data = some (data.printAWBURL.getD ("".data)) := by
    rw [hunf, dictGet_setKey_ne _ _ _ _ (by decide),
      dictGet_setKey_ne _ _ _ _ (by decide),
      dictGet_setKey_ne _ _ _ _ (by decide),
      dictGet_setKey_ne _ _ _ _ (by decide),
      dictGet_setKey_ne _ _ _ _ (by decide), dictGet_setKey_self]
  have h3 : dictGet (store_value_in_metadata f.metadata data)
      "trackingURL".data = some (data.trackingURL.getD ("".data)) := by
    rw [hunf, dictGet_setKey_ne _ _ _ _ (by decide),
      dictGet_setKey_ne _ _ _ _ (by decide),
      dictGet_setKey_ne _ _ _ _ (by decide),
      dictGet_setKey_ne _ _ _ _ (by decide), dictGet_setKey_self]
  have h4 : dictGet (store_value_in_metadata f.metadata data)
      "feedbackLink".data = some (data.feedbackLink.getD ("".data)) := by
    rw [hunf, dictGet_setKey_ne _ _ _ _ (by decide),
      dictGet_setKey_ne _ _ _ _ (by decide),
      dictGet_setKey_ne _ _ _ _ (by decide), dictGet_setKey_self]
  have h5 : dictGet (store_value_in_metadata f.metadata data)
      "shippingCompanyStatus".data = some (data.dcStatus.getD ("".data)) := by
    rw [hunf, dictGet_setKey_ne _ _ _ _ (by decide),
      dictGet_setKey_ne _ _ _ _ (by decide), dictGet_setKey_self]
  have h6 : dictGet (store_value_in_metadata f.metadata data)
      "deliveryCompany".data = some (data.deliveryCompany.getD ("".data)) := by
    rw [hunf, dictGet_setKey_ne _ _ _ _ (by decide), dictGet_setKey_self]
  have h7 : dictGet (store_value_in_metadata f.metadata data)
      "deliverySlotDate".data = some (data.deliverySlotDate.getD ("".data)) := by
    rw [hunf, dictGet_setKey_self]
  exact ⟨{ f with tracking_number := data.trackingNumber.getD ("".data),
                  metadata := store_value_in_metadata f.metadata data },
    handle_webhook_resolved fs data config pk seq f hv hp hf,
    rfl, rfl, rfl, rfl, hnm, hkiff, h1, h2, h3, h4, h5, h6, h7⟩

/-- Witness for C4: the merge facts at a concrete verified webhook against a
store holding `fEx`, whose metadata has the unrelated key "foo". -/
theorem handle_webhook_metadata_merge_witness :
    ∃ f' : Fulfillment Unit,
      handle_webhook [fEx] payloadEx cfgEx = some
        ⟨⟨200, "OK".data⟩, replaceFirst (fulfillmentMatches 7 1) f' [fEx],
         if payloadEx.status = "canceled".data then
           [⟨"admin@example.com".data, none, none, f'⟩] else []⟩ ∧
      f'.order_pk = fEx.order_pk ∧
      f'.fulfillment_order = fEx.fulfillment_order ∧
      f'.rest = fEx.rest ∧
      f'.tracking_number = payloadEx.trackingNumber.getD ("".data) ∧
      (∀ k : Str, k ∉ sevenKeys →
        dictGet f'.metadata k = dictGet fEx.metadata k) ∧
      (∀ k : Str, k ∈ keysOf f'.metadata ↔
        k ∈ keysOf fEx.metadata ∨ k ∈ sevenKeys) ∧
      dictGet f'.metadata ("otoStatus".data) = some payloadEx.status ∧
      dictGet f'.metadata ("printAWBURL".data) =
        some (payloadEx.printAWBURL.getD ("".data)) ∧
      dictGet f'.metadata ("trackingURL".data) =
        some (payloadEx.trackingURL.getD ("".data)) ∧
      dictGet f'.metadata ("feedbackLink".data) =
        some (payloadEx.feedbackLink.getD ("".data)) ∧
      dictGet f'.metadata ("shippingCompanyStatus".data) =
        some (payloadEx.dcStatus.getD ("".data)) ∧
      dictGet f'.metadata ("deliveryCompany".data) =
        some (payloadEx.deliveryCompany.getD ("".data)) ∧
      dictGet f'.metadata ("deliverySlotDate".data) =
        some (payloadEx.deliverySlotDate.getD ("".data)) :=
  handle_webhook_metadata_merge [fEx] payloadEx cfgEx 7 1 fEx
    verify_payloadEx (by decide) (by decide)


/-- C8: delivering the same valid, resolvable webhook payload twice leaves
the store after the second delivery identical to the store after the first:
the second update writes the same tracking number and the metadata merge is
idempotent. -/
theorem handle_webhook_idempotent {ρ : Type} (fs : List (Fulfillment ρ))
    (data : Payload) (config : List (Str × Str)) (pk seq : Nat)
    (f : Fulfillment ρ)
    (hv : verify_webhook data config = VerifyResult.ok)
    (hp : parseOrderId data.orderId = some (pk, seq))
    (hf : fs.find? (fulfillmentMatches pk seq) = some f) :
    ∃ r r₂ : HandleResult ρ,
      handle_webhook fs data config = some r ∧
      handle_webhook r.fulfillments data config = some r₂ ∧
      r₂.fulfillments = r.fulfillments := by
  have h1 := handle_webhook_resolved fs data config pk seq f hv hp hf
  have hq : fulfillmentMatches pk seq f = true := List.find?_some hf
  have hq' : fulfillmentMatches pk seq
      ({ f with tracking_number := data.trackingNumber.getD ("".data),
                metadata := store_value_in_metadata f.metadata data }) =
      true := hq
  have hfind2 := find?_replaceFirst (fulfillmentMatches pk seq) f
    ({ f with tracking_number := data.trackingNumber.getD ("".data),
              metadata := store_value_in_metadata f.metadata data })
    fs hf hq'
  have h2 := handle_webhook_resolved
    (replaceFirst (fulfillmentMatches pk seq)
      ({ f with tracking_number := data.trackingNumber.getD ("".data),
                metadata := store_value_in_metadata f.metadata data }) fs)
    data config pk seq _ hv hp hfind2
  have hmeta : store_value_in_metadata
      (store_value_in_metadata f.metadata data) data =
      store_value_in_metadata f.metadata data := applyAll_idem _ _
  rw [show ({ f with tracking_number := data.trackingNumber.getD ("".data),
                     metadata := store_value_in_metadata f.metadata data } :
      Fulfillment ρ).metadata = store_value_in_metadata f.metadata data
    from rfl, hmeta] at h2
  refine ⟨_, _, h1, h2, ?_⟩
  exact replaceFirst_replaceFirst (fulfillmentMatches pk seq) _ fs hq'

/-- Witness for C8 at a concrete verified payload delivered twice. -/
theorem handle_webhook_idempotent_witness :
    ∃ r r₂ : HandleResult Unit,
      handle_webhook [fEx] payloadEx cfgEx = some r ∧
      handle_webhook r.fulfillments payloadEx cfgEx = some r₂ ∧
      r₂.fulfillments = r.fulfillments :=
  handle_webhook_idempotent [fEx] payloadEx cfgEx 7 1 fEx
    verify_payloadEx (by decide) (by decide)

/-- C7: the create-order payload reports the order's full net shipping price
when the order has exactly one fulfillment, and 0 when it has two or more. -/
theorem generate_create_order_data_shipping_split (site : Str)
    (f : OutFulfillment) (d : OrderData)
    (h : generate_create_order_data site f = some d) :
    (f.order.fulfillments_count = 1 →
      d.shippingAmount = f.order.shipping_price_net_amount) ∧
    (2 ≤ f.order.fulfillments_count → d.shippingAmount = 0) := by
  cases hl : f.lines.getLast? with
  | none =>
    rw [generate_create_order_data, hl] at h
    simp at h
  | some line =>
    cases hg : f.order.last_payment_gateway with
    | none =>
      rw [generate_create_order_data, hl, hg] at h
      simp at h
    | some gw =>
      cases hc : get_order_customer_data f.order with
      | none =>
        rw [generate_create_order_data, hl, hg, hc] at h
        simp at h
      | some cust =>
        rw [generate_create_order_data, hl, hg, hc] at h
        rw [Option.some_inj] at h
        constructor
        · intro h1
          rw [← h]
          show (if f.order.fulfillments_count = 1 then
            f.order.shipping_price_net_amount else 0) =
            f.order.shipping_price_net_amount
          rw [if_pos h1]
        · intro h2
          rw [← h]
          show (if f.order.fulfillments_count = 1 then
            f.order.shipping_price_net_amount else 0) = 0
          rw [if_neg (by omega)]

/-- Witness for C7: the single-fulfillment order reports the full shipping
price 25, the two-fulfillment order reports 0. -/
theorem generate_create_order_data_shipping_split_witness :
    ((outFEx.order.fulfillments_count = 1 →
      orderDataEx.shippingAmount = outFEx.order.shipping_price_net_amount) ∧
     (2 ≤ outFEx.order.fulfillments_count →
      orderDataEx.shippingAmount = 0)) ∧
    ((outFEx2.order.fulfillments_count = 1 →
      orderDataEx2.shippingAmount = outFEx2.order.shipping_price_net_amount) ∧
     (2 ≤ outFEx2.order.fulfillments_count →
      orderDataEx2.shippingAmount = 0)) :=
  ⟨generate_create_order_data_shipping_split ("example.com".data) outFEx
      orderDataEx rfl,
   generate_create_order_data_shipping_split ("example.com".data) outFEx2
      orderDataEx2 rfl⟩

/-- C9: the "amount" field is the quantity of the fulfillment's last line
times that line's unit net price, and — as the concrete two-line fixture
shows — not the sum over all of the fulfillment's lines. -/
theorem generate_create_order_data_amount_last_line :
    (∀ (site : Str) (f : OutFulfillment) (d : OrderData)
        (line : FulfillmentLine),
      f.lines.getLast? = some line →
      generate_create_order_data site f = some d →
      d.amount = (line.quantity : ℚ) * line.order_line.unit_price_net_amount) ∧
    (generate_create_order_data ("example.com".data) outFEx).map OrderData.amount
      ≠ some ((outFEx.lines.map (fun l =>
          (l.quantity : ℚ) * l.order_line.unit_price_net_amount)).sum) := by
  have hgen : ∀ (site : Str) (f : OutFulfillment) (d : OrderData)
      (line : FulfillmentLine),
      f.lines.getLast? = some line →
      generate_create_order_data site f = some d →
      d.amount = (line.quantity : ℚ) *
        line.order_line.unit_price_net_amount := by
    intro site f d line hl h
    cases hg : f.order.last_payment_gateway with
    | none =>
      rw [generate_create_order_data, hl, hg] at h
      simp at h
    | some gw =>
      cases hc : get_order_customer_data f.order with
      | none =>
        rw [generate_create_order_data, hl, hg, hc] at h
        simp at h
      | some cust =>
        rw [generate_create_order_data, hl, hg, hc] at h
        rw [Option.some_inj] at h
        rw [← h]
  refine ⟨hgen, ?_⟩
  have hamt := hgen ("example.com".data) outFEx orderDataEx ⟨3, orderLineEx2⟩
    rfl rfl
  rw [show generate_create_order_data ("example.com".data) outFEx
    = some orderDataEx from rfl]
  simp only [Option.map_some', ne_eq, Option.some.injEq]
  rw [hamt]
  simp [outFEx, orderLineEx, orderLineEx2]

/-- Witness for C9: for the two-line fixture the amount is taken from the
last line (quantity 3, unit price 5). -/
theorem generate_create_order_data_amount_last_line_witness :
    orderDataEx.amount =
      ((3 : Nat) : ℚ) * orderLineEx2.unit_price_net_amount :=
  generate_create_order_data_amount_last_line.1 ("example.com".data) outFEx
    orderDataEx ⟨3, orderLineEx2⟩ rfl rfl

/-- C10: with no PUBLIC_KEY_FOR_SIGNATURE entry in the configuration,
`verify_webhook` behaves exactly as with an empty-string secret, and a
payload signed with the empty-string secret verifies successfully. -/
theorem verify_webhook_default_empty_key (data : Payload)
    (config : List (Str × Str))
    (h : dictGet config ("PUBLIC_KEY_FOR_SIGNATURE".data) = none) :
    verify_webhook data config =
      verify_webhook data [("PUBLIC_KEY_FOR_SIGNATURE".data, "".data)] ∧
    (data.signature = some (expectedSig ("".data) data) →
      verify_webhook data config = VerifyResult.ok) := by
  have hk : cfgKey config = "".data := by
    unfold cfgKey
    rw [h]
    rfl
  have hk2 : cfgKey [("PUBLIC_KEY_FOR_SIGNATURE".data, "".data)] =
      "".data := rfl
  constructor
  · unfold verify_webhook
    rw [hk, hk2]
  · intro hs
    apply verify_webhook_of_sig
    rw [hs, hk]

/-- Witness for C10: a payload signed with the empty-string secret verifies
under the empty configuration. -/
theorem verify_webhook_default_empty_key_witness :
    verify_webhook payloadEmptyKey [] = VerifyResult.ok :=
  (verify_webhook_default_empty_key payloadEmptyKey [] rfl).2
    (by rw [show payloadEmptyKey.signature
          = some (expectedSig ("".data) payloadBase) from rfl,
        expectedSig_congr ("".data) payloadEmptyKey payloadBase rfl])

/-! ## Digest shape lemmas (for the pigeonhole argument) -/

theorem bytesOfWord_lt (w : Nat) : ∀ b ∈ bytesOfWord w, b < 256 := by
  intro b hb
  simp only [bytesOfWord, List.mem_cons, List.not_mem_nil, or_false] at hb
  rcases hb with h | h | h | h <;> subst h <;> exact Nat.mod_lt _ (by omega)

theorem digestBytes_lt (st : Hstate) : ∀ b ∈ digestBytes st, b < 256 := by
  intro b hb
  simp only [digestBytes, List.mem_append] at hb
  rcases hb with (((((((h | h) | h) | h) | h) | h) | h) | h) <;>
    exact bytesOfWord_lt _ b h

theorem digestBytes_length (st : Hstate) : (digestBytes st).length = 32 := by
  simp [digestBytes, bytesOfWord]

theorem hmacSha256_lt (key msg : List Nat) :
    ∀ b ∈ hmacSha256 key msg, b < 256 :=
  digestBytes_lt _

theorem hmacSha256_length (key msg : List Nat) :
    (hmacSha256 key msg).length = 32 :=
  digestBytes_length _

/-- Exact characterization of `verify_webhook`: it returns `True` iff the
payload's signature equals the base64 HMAC-SHA256 of
"orderId:status:timestamp" under the configured key. -/
theorem verify_webhook_iff (data : Payload) (config : List (Str × Str)) :
    verify_webhook data config = VerifyResult.ok ↔
      data.signature = some (expectedSig (cfgKey config) data) := by
  unfold verify_webhook
  by_cases hc : some (expectedSig (cfgKey config) data) = data.signature
  · rw [if_pos hc]
    exact ⟨fun _ => hc.symm, fun _ => rfl⟩
  · rw [if_neg hc]
    exact ⟨fun h => VerifyResult.noConfusion h, fun hs => absurd hs.symm hc⟩

/-- C1 (amended): verification succeeds iff the signature equals the base64
HMAC-SHA256 of "orderId:status:timestamp" under the configured key; changing
exactly one of orderId, status or timestamp always changes the authenticated
message; and any mutation of a field or the secret that keeps the old
signature fails verification whenever the recomputed signature differs from
the original one. -/
theorem verify_webhook_characterization :
    (∀ (data : Payload) (config : List (Str × Str)),
      verify_webhook data config = VerifyResult.ok ↔
        data.signature = some (expectedSig (cfgKey config) data)) ∧
    (∀ p p' : Payload, p'.status = p.status → p'.timestamp = p.timestamp →
      p'.orderId ≠ p.orderId → msgOf p' ≠ msgOf p) ∧
    (∀ p p' : Payload, p'.orderId = p.orderId → p'.timestamp = p.timestamp →
      p'.status ≠ p.status → msgOf p' ≠ msgOf p) ∧
    (∀ p p' : Payload, p'.orderId = p.orderId → p'.status = p.status →
      p'.timestamp ≠ p.timestamp → msgOf p' ≠ msgOf p) ∧
    (∀ (p p' : Payload) (k k' : Str),
      verify_webhook p [("PUBLIC_KEY_FOR_SIGNATURE".data, k)] =
        VerifyResult.ok →
      p'.signature = p.signature →
      expectedSig k' p' ≠ expectedSig k p →
      verify_webhook p' [("PUBLIC_KEY_FOR_SIGNATURE".data, k')] ≠
        VerifyResult.ok) := by
  have hkey : ∀ k : Str, cfgKey [("PUBLIC_KEY_FOR_SIGNATURE".data, k)] = k := by
    intro k
    simp [cfgKey, dictGet]
  refine ⟨verify_webhook_iff, ?_, ?_, ?_, ?_⟩
  · intro p p' hs ht hne heq
    rw [msgOf, msgOf, hs, ht] at heq
    exact hne (List.append_cancel_right (List.append_cancel_right heq))
  · intro p p' ho ht hne heq
    rw [msgOf, msgOf, ho, ht] at heq
    have h2 := List.append_cancel_left (List.append_cancel_right heq)
    injection h2 with _ h3
    exact hne h3
  · intro p p' ho hs hne heq
    rw [msgOf, msgOf, ho, hs] at heq
    have h2 := List.append_cancel_left heq
    injection h2 with _ h3
    exact hne h3
  · intro p p' k k' hv hsig hne habs
    have h1 := (verify_webhook_iff p _).mp hv
    have h2 := (verify_webhook_iff p' _).mp habs
    rw [hkey] at h1 h2
    rw [hsig, h1] at h2
    injection h2 with h3
    exact hne h3.symm

set_option maxRecDepth 1000000 in
/-- Witness for C1's amended claim: mutating the orderId of a concretely
signed payload while keeping its signature makes verification fail (the two
concrete HMAC values are computed and differ). -/
theorem verify_webhook_characterization_witness :
    verify_webhook payloadMut
      [("PUBLIC_KEY_FOR_SIGNATURE".data, "secret".data)] ≠
      VerifyResult.ok :=
  verify_webhook_characterization.2.2.2.2 payloadEx payloadMut
    "secret".data ("secret".data) verify_payloadEx rfl (by decide)

/-- C1 is false as frozen: it asserts that changing any one field (keeping
the old signature) always flips verification to failure.  HMAC-SHA256 has at
most 256^32 distinct digests while orderIds are unbounded, so by pigeonhole
two distinct orderIds produce the same signature under the same key; the
payload built from one verifies, and mutating its orderId into the other
while keeping the signature still verifies.  (No explicit colliding pair is
known, so the refutation is non-constructive.) -/
theorem verify_webhook_mutation_flip_refuted :
    ¬ (∀ (p : Payload) (k : Str),
        (verify_webhook p [("PUBLIC_KEY_FOR_SIGNATURE".data, k)] =
            VerifyResult.ok ↔
          p.signature = some (expectedSig k p)) ∧
        (verify_webhook p [("PUBLIC_KEY_FOR_SIGNATURE".data, k)] =
            VerifyResult.ok →
          (∀ p' : Payload, p'.signature = p.signature →
            p'.status = p.status → p'.timestamp = p.timestamp →
            p'.orderId ≠ p.orderId →
            verify_webhook p' [("PUBLIC_KEY_FOR_SIGNATURE".data, k)] ≠
              VerifyResult.ok) ∧
          (∀ p' : Payload, p'.signature = p.signature →
            p'.orderId = p.orderId → p'.timestamp = p.timestamp →
            p'.status ≠ p.status →
            verify_webhook p' [("PUBLIC_KEY_FOR_SIGNATURE".data, k)] ≠
              VerifyResult.ok) ∧
          (∀ p' : Payload, p'.signature = p.signature →
            p'.orderId = p.orderId → p'.status = p.status →
            p'.timestamp ≠ p.timestamp →
            verify_webhook p' [("PUBLIC_KEY_FOR_SIGNATURE".data, k)] ≠
              VerifyResult.ok) ∧
          (∀ k' : Str, k' ≠ k →
            verify_webhook p [("PUBLIC_KEY_FOR_SIGNATURE".data, k')] ≠
              VerifyResult.ok))) := by
  intro H
  obtain ⟨o₁, o₂, hne, heq⟩ := Finite.exists_ne_map_eq_of_infinite
    (fun o : Str => (fun i : Fin 32 =>
      (⟨(hmacSha256 (strBytes ("".data))
          (strBytes (msgOf (mkPayload o none)))).getD i.val 0 % 256,
        Nat.mod_lt _ (by omega)⟩ : Fin 256)))
  have hdig : hmacSha256 (strBytes ("".data)) (strBytes (msgOf (mkPayload o₁ none)))
      = hmacSha256 (strBytes ("".data)) (strBytes (msgOf (mkPayload o₂ none))) := by
    apply List.ext_getElem
    · rw [hmacSha256_length, hmacSha256_length]
    · intro i h1 h2
      have h32 : i < 32 := by rw [hmacSha256_length] at h1; exact h1
      have hv1 : (hmacSha256 (strBytes ("".data))
            (strBytes (msgOf (mkPayload o₁ none)))).getD i 0 % 256 =
          (hmacSha256 (strBytes ("".data))
            (strBytes (msgOf (mkPayload o₂ none)))).getD i 0 % 256 :=
        congrArg Fin.val (congrFun heq ⟨i, h32⟩)
      rw [List.getD_eq_getElem _ 0 h1, List.getD_eq_getElem _ 0 h2] at hv1
      rw [Nat.mod_eq_of_lt (hmacSha256_lt _ _ _ (List.getElem_mem h1)),
        Nat.mod_eq_of_lt (hmacSha256_lt _ _ _ (List.getElem_mem h2))] at hv1
      exact hv1
  have hsig2 : expectedSig ("".data) (mkPayload o₂ none) =
      expectedSig ("".data) (mkPayload o₁ none) := by
    unfold expectedSig
    rw [hdig]
  have hok₁ : verify_webhook
      (mkPayload o₁ (some (expectedSig ("".data) (mkPayload o₁ none))))
      [("PUBLIC_KEY_FOR_SIGNATURE".data, "".data)] = VerifyResult.ok := by
    apply (verify_webhook_iff _ _).mpr
    rw [show cfgKey [("PUBLIC_KEY_FOR_SIGNATURE".data, "".data)] = "".data
      from rfl]
    rw [expectedSig_congr ("".data)
      (mkPayload o₁ (some (expectedSig ("".data) (mkPayload o₁ none))))
      (mkPayload o₁ none) rfl]
    rfl
  have hok₂ : verify_webhook
      (mkPayload o₂ (some (expectedSig ("".data) (mkPayload o₁ none))))
      [("PUBLIC_KEY_FOR_SIGNATURE".data, "".data)] = VerifyResult.ok := by
    apply (verify_webhook_iff _ _).mpr
    rw [show cfgKey [("PUBLIC_KEY_FOR_SIGNATURE".data, "".data)] = "".data
      from rfl]
    rw [expectedSig_congr ("".data)
      (mkPayload o₂ (some (expectedSig ("".data) (mkPayload o₁ none))))
      (mkPayload o₂ none) rfl]
    rw [hsig2]
    rfl
  exact ((H (mkPayload o₁ (some (expectedSig ("".data) (mkPayload o₁ none))))
      "".data).2 hok₁).1
    (mkPayload o₂ (some (expectedSig ("".data) (mkPayload o₁ none))))
    rfl rfl rfl (fun hh => hne.symm hh) hok₂
